import Mathlib

/-!
Verification of the gotty session-admission core: a shallow embedding of
the session guard (`beginManagedSession` / `finish`), environment
resolution (`resolveEnvFromRequest`), the health gate (`wrapUnhealthy`),
the close-reason classifier (`shouldDecommission`), the WebSocket
handshake (`processWSConn`) and the WebSocket HTTP handler
(`generateHandleWS`), together with theorems settling the frozen claims.

Go machine integers are modelled as `Int` (no arithmetic here comes close
to overflow), Go `error` values as an inductive `GoError` with `none` for
`nil`, and `url.Values` as association lists from keys to value lists.
-/

namespace Gotty

/-- constants mirroring the Go constants `envQueryParam`, `envCookieName`,
`envValueDev`, `envValueProd`. -/
def envCookieName : String := "gotty.env"

def envValueDev : String := "dev"

def envValueProd : String := "prod"

/-- ASCII whitespace as recognized by Go's `unicode.IsSpace` (the
non-ASCII space code points Go also accepts never occur in the values
considered here). -/
def isSpaceGo (c : Char) : Bool :=
  c == ' ' || c == '\t' || c == '\n' || c == '\x0b' || c == '\x0c' || c == '\r'

/-- `strings.TrimSpace`, defined over the character list so concrete
instances evaluate by reduction. -/
def trimSpace (s : String) : String :=
  ⟨((s.data.dropWhile isSpaceGo).reverse.dropWhile isSpaceGo).reverse⟩

/-- `strings.ToLower` on the ASCII values considered here. -/
def lowerASCII (s : String) : String :=
  ⟨s.data.map Char.toLower⟩

/-- splitting a character list at every occurrence of a separator; the
result always has one more piece than there are separators. -/
def splitOnChar (sep : Char) : List Char → List (List Char)
  | [] => [[]]
  | c :: rest =>
    if c == sep then
      [] :: splitOnChar sep rest
    else
      match splitOnChar sep rest with
      | [] => [[c]]
      | piece :: pieces => (c :: piece) :: pieces

/-- splitting a string at every occurrence of a single-character
separator (all separators used by the handlers are single
characters). -/
def splitStr (sep : Char) (s : String) : List String :=
  (splitOnChar sep s.data).map fun l => ⟨l⟩

/-- joining strings with a single-character separator. -/
def joinStr (sep : Char) : List String → String
  | [] => ""
  | [x] => x
  | x :: xs => ⟨x.data ++ sep :: (joinStr sep xs).data⟩

/-- the two session admission errors (`errSessionActive`, `errServerDestroyed`). -/
inductive SessionError where
  | sessionActive
  | serverDestroyed
deriving DecidableEq, Repr

/-- the `Error()` string of each `sessionError` value. -/
def SessionError.message : SessionError → String
  | .sessionActive => "Another session is active"
  | .serverDestroyed => "Server has been destroyed"

/-- the mutable per-`Server` flags used by the admission controller:
`activeSession`, `decommissioned`, `unhealthy` (the atomic int32 modelled
as a Bool), and the per-handler `once` CAS flag of `generateHandleWS`
(an `int64` used only as a 0/1 flag). -/
structure ServerState where
  activeSession : Bool
  decommissioned : Bool
  unhealthy : Bool
  onceClaimed : Bool
deriving DecidableEq, Repr

/-- the all-false initial server state. -/
def initialServer : ServerState :=
  ⟨false, false, false, false⟩

/-- a session guard ticket: only the resolved environment is stored
(the Go struct also holds a back-pointer to the server, which in this
state-passing embedding is the explicit `ServerState` argument). -/
structure SessionGuard where
  env : String
deriving DecidableEq, Repr

/-- `markUnhealthy` from the health middleware: stores 1 into the atomic
`unhealthy` flag. -/
def markUnhealthy (s : ServerState) : ServerState :=
  { s with unhealthy := true }

/-- `(*Server).beginManagedSession(env)`: refuses when decommissioned,
always admits `dev`, and otherwise admits a prod session only when the
`activeSession` slot is free, taking it. -/
def beginManagedSession (s : ServerState) (env : String) :
    Except SessionError SessionGuard × ServerState :=
  if s.decommissioned then
    (Except.error SessionError.serverDestroyed, s)
  else if env = envValueDev then
    (Except.ok ⟨env⟩, s)
  else if s.activeSession then
    (Except.error SessionError.sessionActive, s)
  else
    (Except.ok ⟨env⟩, { s with activeSession := true })

/-- `(*sessionGuard).finish(decommission)`: a no-op returning false for dev
tickets; for prod tickets it clears `activeSession` and, when asked to
decommission a not-yet-decommissioned server, sets `decommissioned`,
marks the server unhealthy and returns true. -/
def SessionGuard.finish (guard : SessionGuard) (s : ServerState)
    (decommission : Bool) : Bool × ServerState :=
  if guard.env = envValueDev then
    (false, s)
  else if decommission ∧ s.decommissioned = false then
    (true, { s with activeSession := false, decommissioned := true, unhealthy := true })
  else
    (false, { s with activeSession := false })

/-- a plain HTTP response observed by a client: status code and body
(headers other than the body text are not modelled). -/
structure HTTPResponse where
  status : Nat
  body : String
deriving DecidableEq, Repr

/-- `wrapUnhealthy`: the health-gate middleware; an unhealthy server
answers every gated request with `http.Error(w, "session closed", 500)`,
otherwise the inner handler's response passes through. -/
def wrapUnhealthy (unhealthy : Bool) (inner : HTTPResponse) : HTTPResponse :=
  if unhealthy then ⟨500, "session closed"⟩ else inner

/-- a `Set-Cookie` response cookie as built by `resolveEnvFromRequest`. -/
structure SetCookie where
  name : String
  value : String
  path : String
deriving DecidableEq, Repr

/-- `(*Server).resolveEnvFromRequest`: `envQuery` is the raw `ENV` query
parameter (`""` when absent) and `cookie` the value of a received
`gotty.env` cookie when one is present.  Returns the resolved environment
string together with the response cookie set, if any. -/
def resolveEnvFromRequest (envQuery : String) (cookie : Option String) :
    String × Option SetCookie :=
  let envValue := trimSpace envQuery
  if envValue ≠ "" then
    (lowerASCII envValue, some ⟨envCookieName, envValue, "/"⟩)
  else
    let envValue := match cookie with
      | some v => v
      | none => ""
    if envValue = "" then
      (envValueProd, none)
    else
      (lowerASCII envValue, none)

/-- `(*Server).shouldServeHTTP`: serves as long as the server is not
decommissioned. -/
def shouldServeHTTP (s : ServerState) : Bool :=
  !s.decommissioned

/-- a Go `error` value as seen by the handler: the two context errors, the
two webtty sentinel errors, the opaque cause of a failed
`json.Unmarshal`, other leaf errors carrying a message, and
`pkgerrors.Wrapf` wrapping.  `Option GoError` stands for a possibly-`nil`
error, `none` being `nil`. -/
inductive GoError where
  | canceled
  | deadlineExceeded
  | masterClosed
  | slaveClosed
  | jsonError
  | stringError (msg : String)
  | wrap (msg : String) (inner : GoError)
deriving DecidableEq, Repr

/-- `pkgerrors.Cause`: repeatedly unwraps `Wrapf` layers down to the root
error. -/
def GoError.cause : GoError → GoError
  | .wrap _ inner => inner.cause
  | e => e

/-- `shouldDecommission(err)` from handlers.go: true for `nil` and for
errors whose cause is `context.Canceled`, `context.DeadlineExceeded`,
`webtty.ErrMasterClosed` or `webtty.ErrSlaveClosed`; false otherwise. -/
def shouldDecommission : Option GoError → Bool
  | none => true
  | some e =>
    match e.cause with
    | .canceled => true
    | .deadlineExceeded => true
    | .masterClosed => true
    | .slaveClosed => true
    | _ => false

/-- a `url.Values` value: an association list from parameter keys to their
value lists (a Go map; keys occur at most once when built by parsing). -/
abbrev Query := List (String × List String)

/-- map lookup on `Query`. -/
def lookupQ (m : Query) (k : String) : Option (List String) :=
  match m with
  | [] => none
  | (k1, vs) :: rest => if k1 = k then some vs else lookupQ rest k

/-- `m[key] = append(m[key], value)` on a `url.Values`: appends a value to
an existing key's list, or adds the key at the end. -/
def addQueryValue (m : Query) (k v : String) : Query :=
  match m with
  | [] => [(k, [v])]
  | (k1, vs) :: rest =>
    if k1 = k then (k1, vs ++ [v]) :: rest else (k1, vs) :: addQueryValue rest k v

/-- `strings.Cut(seg, "=")`: splits a `key=value` segment at the first
equals sign; a segment without one yields an empty value. -/
def cutEq (seg : String) : String × String :=
  match splitStr '=' seg with
  | [] => (seg, "")
  | k :: rest => (k, joinStr '=' rest)

/-- `url.ParseQuery` on an unescaped raw query: splits on `&`, skips empty
segments and segments containing `;`, and cuts each remaining segment at
its first `=`.  Percent-decoding and `+`-to-space translation are omitted:
every raw query considered here is escape-free, where `ParseQuery` is the
identity on keys and values. -/
def parseQuery (raw : String) : Query :=
  (splitStr '&' raw).foldl
    (fun m seg =>
      if seg = "" ∨ seg.data.contains ';' then m
      else addQueryValue m (cutEq seg).1 (cutEq seg).2)
    []

/-- the query-string extraction performed by `url.Parse` on the
scheme-free strings passed as `queryPath`: the fragment after the first
`#` is cut off, and the raw query is everything after the first `?`
(empty when there is none). -/
def rawQueryOf (s : String) : String :=
  let noFrag := match splitStr '#' s with
    | [] => ""
    | r :: _ => r
  match splitStr '?' noFrag with
  | [] => ""
  | [_] => ""
  | _ :: rest => joinStr '?' rest

/-- the `for key, values := range httpQueryParams { params[key] = values }`
loop of `processWSConn`: each HTTP key's value list replaces (or adds)
that key's entry. -/
def setQueryKey (m : Query) (k : String) (vs : List String) : Query :=
  match m with
  | [] => [(k, vs)]
  | (k1, vs1) :: rest =>
    if k1 = k then (k, vs) :: rest else (k1, vs1) :: setQueryKey rest k vs

/-- overlaying the HTTP query parameters on top of the init-message
parameters, HTTP taking precedence per key. -/
def overlayHTTPParams (params http : Query) : Query :=
  http.foldl (fun m kv => setQueryKey m kv.1 kv.2) params

/-- the immutable server options consulted by the handlers. -/
structure Options where
  once : Bool
  maxConnection : Int
  credential : String
  permitArguments : Bool
deriving DecidableEq, Repr

/-- the first WebSocket text frame's JSON payload. -/
structure InitMessage where
  AuthToken : String
  Arguments : String
deriving DecidableEq, Repr

/-- `websocket.TextMessage` from the gorilla package. -/
def textMessage : Int := 1

/-- the parameter set `processWSConn` passes to the backend factory:
`queryPath` is `"?"` unless arguments are permitted and the init message
supplies some, then `url.Parse(queryPath).Query()` is overlaid with the
HTTP query parameters. -/
def wsMergedParams (opts : Options) (arguments : String) (http : Query) : Query :=
  let queryPath := if opts.permitArguments ∧ arguments ≠ "" then arguments else "?"
  overlayHTTPParams (parseQuery (rawQueryOf queryPath)) http

deriving instance DecidableEq for Except

/-- the interaction a single WebSocket session has with its environment,
supplied as oracles: the live count returned by `counter.add(1)`, the
result of `conn.ReadMessage()` (an error, or a frame type together with
the outcome of `json.Unmarshal` on its payload, `none` meaning malformed
JSON), the factory / title-template / webtty construction results, and
the error `tty.Run(ctx)` finally returns. -/
structure SessionIO where
  liveCount : Int
  readResult : Except GoError (Int × Option InitMessage)
  factoryResult : Except GoError Unit
  titleOk : Bool
  webttyNewOk : Bool
  runResult : Option GoError
deriving DecidableEq, Repr

/-- what `processWSConn` did: the error it returned (`none` for `nil`),
whether the backend factory was invoked, and the parameter set handed to
it when it was. -/
structure ProcResult where
  err : Option GoError
  factoryInvoked : Bool
  factoryParams : Option Query
deriving DecidableEq

/-- `(*Server).processWSConn`: reads the init frame, requires a text
frame, valid JSON and a matching `AuthToken`, merges arguments with the
HTTP query, and only then creates the backend, the window title, the
webtty and runs it.  The title-template and webtty errors are modelled
with opaque leaf causes. -/
def processWSConn (opts : Options) (io : SessionIO) (httpQueryParams : Query) :
    ProcResult :=
  match io.readResult with
  | .error e =>
    ⟨some (.wrap "failed to authenticate websocket connection" e), false, none⟩
  | .ok (typ, payload) =>
    if typ ≠ textMessage then
      ⟨some (.stringError "failed to authenticate websocket connection: invalid message type"),
        false, none⟩
    else
      match payload with
      | none =>
        ⟨some (.wrap "failed to authenticate websocket connection" .jsonError), false, none⟩
      | some init =>
        if init.AuthToken ≠ opts.credential then
          ⟨some (.stringError "failed to authenticate websocket connection"), false, none⟩
        else
          let params := wsMergedParams opts init.Arguments httpQueryParams
          match io.factoryResult with
          | .error e => ⟨some (.wrap "failed to create backend" e), true, some params⟩
          | .ok _ =>
            if io.titleOk = false then
              ⟨some (.wrap "failed to fill window title template"
                (.stringError "template execution error")), true, some params⟩
            else if io.webttyNewOk = false then
              ⟨some (.wrap "failed to create webtty"
                (.stringError "webtty construction error")), true, some params⟩
            else
              ⟨io.runResult, true, some params⟩

/-- the request data consulted by the WebSocket handler: HTTP method, raw
`ENV` query parameter, received `gotty.env` cookie, the full query
parameter map, and whether the WebSocket upgrade succeeds. -/
structure Request where
  method : String
  envQuery : String
  envCookie : Option String
  queryParams : Query
  upgradeOk : Bool
deriving DecidableEq, Repr

/-- the environment the handler resolves for a request. -/
def envOf (r : Request) : String :=
  (resolveEnvFromRequest r.envQuery r.envCookie).1

/-- the terminal outcome of one call to the WebSocket handler, as a client
observes it: a plain HTTP error, a failed upgrade, a WebSocket close
frame sent after upgrade, or a completed `processWSConn` run returning
the given error. -/
inductive WSResponse where
  | httpError (status : Nat) (body : String)
  | upgradeFail
  | closeFrame (code : Nat) (reason : String)
  | ran (err : Option GoError)
deriving DecidableEq, Repr

/-- the full observable effect of one call to the handler returned by
`generateHandleWS`: the response, whether `processWSConn` was entered
(authentication attempted), whether the backend factory was invoked, the
argument passed to the deferred `guard.finish` (`none` when no guard was
obtained), the boolean `finish` returned, and the resulting server
state. -/
structure HandlerOutcome where
  response : WSResponse
  authAttempted : Bool
  factoryInvoked : Bool
  finishArg : Option Bool
  destroyedLog : Bool
  state : ServerState
deriving DecidableEq, Repr

/-- the value of `sessionShouldDecommission` after `processWSConn`
returns: its error is classified by `shouldDecommission` only for
non-dev sessions, otherwise the flag stays false. -/
def sessionDecommissionArg (env : String) (err : Option GoError) : Bool :=
  if env ≠ envValueDev then shouldDecommission err else false

/-- the handler returned by `generateHandleWS`, with the deferred
`guard.finish(sessionShouldDecommission)` call made explicit on every
exit path after a guard exists.  Control flow mirrors the source:
environment resolution, the once-mode CAS gate, session admission, the
method check, `counter.add(1)` (its result is the oracle
`io.liveCount`), the upgrade, the max-connection check, and
`processWSConn`. -/
def handleWS (opts : Options) (st : ServerState) (req : Request)
    (io : SessionIO) : HandlerOutcome :=
  if opts.once ∧ st.onceClaimed then
    ⟨.httpError 503 "Server is shutting down", false, false, none, false, st⟩
  else
    match beginManagedSession
        (if opts.once then { st with onceClaimed := true } else st) (envOf req) with
    | (.error e, st1) =>
      ⟨.httpError 503
          (if e = SessionError.serverDestroyed then "Server is unavailable"
            else e.message),
        false, false, none, false, st1⟩
    | (.ok guard, st1) =>
      if req.method ≠ "GET" then
        ⟨.httpError 405 "Method not allowed", false, false, some false,
          (guard.finish st1 false).1, (guard.finish st1 false).2⟩
      else if req.upgradeOk = false then
        ⟨.upgradeFail, false, false, some false,
          (guard.finish st1 false).1, (guard.finish st1 false).2⟩
      else if opts.maxConnection ≠ 0 ∧ io.liveCount > opts.maxConnection then
        ⟨.closeFrame 4000 "Another session is active", false, false, some false,
          (guard.finish st1 false).1, (guard.finish st1 false).2⟩
      else
        ⟨.ran (processWSConn opts io req.queryParams).err, true,
          (processWSConn opts io req.queryParams).factoryInvoked,
          some (sessionDecommissionArg (envOf req)
            (processWSConn opts io req.queryParams).err),
          (guard.finish st1 (sessionDecommissionArg (envOf req)
            (processWSConn opts io req.queryParams).err)).1,
          (guard.finish st1 (sessionDecommissionArg (envOf req)
            (processWSConn opts io req.queryParams).err)).2⟩

/-- an admission-level event: one `beginManagedSession(env)` call, or one
`finish(d)` call on the `i`-th ticket ever issued. -/
inductive SessionEvent where
  | beginEv (env : String)
  | finishEv (i : Nat) (d : Bool)
deriving DecidableEq, Repr

/-- bookkeeping for one issued ticket: its environment and whether its
`finish` has already been called. -/
structure TicketRec where
  env : String
  finished : Bool
deriving DecidableEq, Repr

/-- the state of the whole admission system: the server flags plus the
list of tickets issued so far. -/
structure SysState where
  srv : ServerState
  tickets : List TicketRec
deriving DecidableEq, Repr

/-- one admission-system step.  A begin event runs `beginManagedSession`
and records the new ticket on success; a finish event runs the `i`-th
ticket's `finish` (a no-op when no such ticket exists) and marks it
finished. -/
def stepSys (st : SysState) (e : SessionEvent) : SysState :=
  match e with
  | .beginEv env =>
    match beginManagedSession st.srv env with
    | (.ok g, s1) => ⟨s1, st.tickets ++ [⟨g.env, false⟩]⟩
    | (.error _, s1) => ⟨s1, st.tickets⟩
  | .finishEv i d =>
    match st.tickets.get? i with
    | some t =>
      ⟨(SessionGuard.finish ⟨t.env⟩ st.srv d).2, st.tickets.set i ⟨t.env, true⟩⟩
    | none => st

/-- running a trace of admission events from a state. -/
def runFrom (st : SysState) (es : List SessionEvent) : SysState :=
  es.foldl stepSys st

/-- running a trace from the initial (empty) system state. -/
def runSys (es : List SessionEvent) : SysState :=
  runFrom ⟨initialServer, []⟩ es

/-- a ticket is live when it belongs to a non-dev session and has not
been finished. -/
def isLive (t : TicketRec) : Bool :=
  !(t.env == envValueDev) && !t.finished

/-- the number of live prod tickets. -/
def liveProdCount (st : SysState) : Nat :=
  (st.tickets.filter isLive).length

/-- the indices of the tickets a trace finishes. -/
def finishIndices (es : List SessionEvent) : List Nat :=
  es.filterMap (fun e => match e with
    | .finishEv i _ => some i
    | _ => none)

/-- the mutual-exclusion invariant: at most one live prod ticket, and
when one exists the prod slot is taken and the server is not
decommissioned. -/
abbrev SysInv (st : SysState) : Prop :=
  liveProdCount st ≤ 1
    ∧ (liveProdCount st = 1 →
        st.srv.activeSession = true ∧ st.srv.decommissioned = false)

/-- a trace never finishes a ticket the state already records as
finished. -/
abbrev NoRefinish (st : SysState) (es : List SessionEvent) : Prop :=
  ∀ i t, st.tickets.get? i = some t → t.finished = true → i ∉ finishIndices es

/-! ## Helper lemmas -/

theorem lookupQ_setQueryKey_self (m : Query) (k : String) (vs : List String) :
    lookupQ (setQueryKey m k vs) k = some vs := by
  induction m with
  | nil => simp [setQueryKey, lookupQ]
  | cons kv rest ih =>
    obtain ⟨k1, vs1⟩ := kv
    by_cases h : k1 = k <;> simp [setQueryKey, lookupQ, h, ih]

theorem lookupQ_setQueryKey_other (m : Query) (k k2 : String) (vs : List String)
    (h : k2 ≠ k) : lookupQ (setQueryKey m k vs) k2 = lookupQ m k2 := by
  induction m with
  | nil => simp [setQueryKey, lookupQ, Ne.symm h]
  | cons kv rest ih =>
    obtain ⟨k1, vs1⟩ := kv
    by_cases h1 : k1 = k
    · subst h1
      simp [setQueryKey, lookupQ, Ne.symm h]
    · simp [setQueryKey, lookupQ, h1, ih]

theorem lookupQ_overlay_not_mem (http : Query) (params : Query) (k : String)
    (h : k ∉ http.map Prod.fst) :
    lookupQ (overlayHTTPParams params http) k = lookupQ params k := by
  induction http generalizing params with
  | nil => rfl
  | cons kv rest ih =>
    obtain ⟨k1, vs1⟩ := kv
    simp only [List.map_cons, List.mem_cons, not_or] at h
    show lookupQ (overlayHTTPParams (setQueryKey params k1 vs1) rest) k = _
    rw [ih _ h.2, lookupQ_setQueryKey_other _ _ _ _ h.1]

theorem lookupQ_overlay_mem (http : Query) (params : Query) (k : String)
    (vs : List String) (hnd : (http.map Prod.fst).Nodup) (hmem : (k, vs) ∈ http) :
    lookupQ (overlayHTTPParams params http) k = some vs := by
  induction http generalizing params with
  | nil => cases hmem
  | cons kv rest ih =>
    obtain ⟨k1, vs1⟩ := kv
    simp only [List.map_cons, List.nodup_cons] at hnd
    rcases List.mem_cons.mp hmem with heq | htail
    · cases heq
      show lookupQ (overlayHTTPParams (setQueryKey params k vs) rest) k = some vs
      rw [lookupQ_overlay_not_mem _ _ _ hnd.1, lookupQ_setQueryKey_self]
    · show lookupQ (overlayHTTPParams (setQueryKey params k1 vs1) rest) k = some vs
      exact ih _ hnd.2 htail

theorem beginManagedSession_onceClaimed (s : ServerState) (env : String) :
    ((beginManagedSession s env).2).onceClaimed = s.onceClaimed := by
  unfold beginManagedSession
  split_ifs <;> rfl

theorem finish_onceClaimed (g : SessionGuard) (s : ServerState) (d : Bool) :
    ((SessionGuard.finish g s d).2).onceClaimed = s.onceClaimed := by
  unfold SessionGuard.finish
  split_ifs <;> rfl

/-! ## Claim theorems -/

/-- C3, counterexample: the claim says every `beginManagedSession` call
with `env = "dev"` succeeds for every server state, but on a
decommissioned server the dev admission fails with `ServerDestroyed`,
because the decommission check precedes the dev bypass. -/
theorem dev_admission_fails_when_decommissioned :
    (beginManagedSession ⟨false, true, true, false⟩ envValueDev).1
      = Except.error SessionError.serverDestroyed := rfl

/-- C3 (amended): on every not-yet-decommissioned server state, a dev
admission succeeds, returns a ticket, and leaves the server state (in
particular `activeSession` and `decommissioned`) unchanged — even while
a prod session is active; and a dev ticket's `finish` returns false and
leaves the state unchanged. -/
theorem dev_bypass (s : ServerState) (d : Bool) :
    (s.decommissioned = false →
      beginManagedSession s envValueDev = (Except.ok ⟨envValueDev⟩, s))
    ∧ SessionGuard.finish ⟨envValueDev⟩ s d = (false, s) := by
  constructor
  · intro h
    unfold beginManagedSession
    simp [h]
  · unfold SessionGuard.finish
    simp

/-- C3, witness: the amended theorem applied at a state with an active
prod session. -/
theorem dev_bypass_witness :
    beginManagedSession ⟨true, false, false, false⟩ envValueDev
        = (Except.ok ⟨envValueDev⟩, ⟨true, false, false, false⟩)
    ∧ SessionGuard.finish ⟨envValueDev⟩ ⟨true, false, false, false⟩ true
        = (false, ⟨true, false, false, false⟩) :=
  ⟨(dev_bypass ⟨true, false, false, false⟩ true).1 rfl,
    (dev_bypass ⟨true, false, false, false⟩ true).2⟩

/-- C9: a ticket's `finish` is idempotent — repeating the call with the
same decommission argument leaves the whole server state exactly as the
first call left it and returns false — and a call returns true exactly
when it transitions `decommissioned` from false to true. -/
theorem finish_idempotent (g : SessionGuard) (s : ServerState) (d : Bool) :
    (SessionGuard.finish g (SessionGuard.finish g s d).2 d).2
        = (SessionGuard.finish g s d).2
    ∧ ((SessionGuard.finish g s d).1 = true ↔
        s.decommissioned = false
          ∧ ((SessionGuard.finish g s d).2).decommissioned = true)
    ∧ (SessionGuard.finish g (SessionGuard.finish g s d).2 d).1 = false := by
  unfold SessionGuard.finish
  by_cases hg : g.env = envValueDev
  · simp [hg]
  · by_cases hd : d = true <;> by_cases hdc : s.decommissioned = false <;>
      simp_all

/-- C8, counterexample: the claim says a non-empty `ENV` query parameter
makes the handler set a `gotty.env` cookie carrying the lowercased
value, but the code stores the original-case (merely trimmed) value in
the cookie and lowercases only the returned environment. -/
theorem env_cookie_not_lowercased :
    resolveEnvFromRequest "DEV" none
        = ("dev", some ⟨envCookieName, "DEV", "/"⟩)
    ∧ ("DEV" : String) ≠ "dev" := by
  constructor
  · rfl
  · decide

/-- C8 (amended): environment resolution is total and deterministic with
no error path; if the `ENV` query parameter is non-empty after trimming
whitespace, the result is the trimmed value lowercased and a `gotty.env`
cookie with path `/` carrying the trimmed value in its original case is
set; otherwise no cookie is set and the result is the lowercased value
of a non-empty `gotty.env` request cookie when one is present, and
`"prod"` when the cookie is absent or empty. -/
theorem resolveEnv_characterization (q : String) (c : Option String) :
    (trimSpace q ≠ "" →
      resolveEnvFromRequest q c
        = (lowerASCII (trimSpace q), some ⟨envCookieName, trimSpace q, "/"⟩))
    ∧ (trimSpace q = "" →
      (resolveEnvFromRequest q c).2 = none
      ∧ (∀ v, c = some v → v ≠ "" →
          (resolveEnvFromRequest q c).1 = lowerASCII v)
      ∧ ((c = none ∨ c = some "") →
          (resolveEnvFromRequest q c).1 = envValueProd)) := by
  constructor
  · intro h
    unfold resolveEnvFromRequest
    simp [h]
  · intro h
    refine ⟨?_, ?_, ?_⟩
    · unfold resolveEnvFromRequest
      rcases c with _ | v
      · simp [h]
      · by_cases hv : v = "" <;> simp [h, hv]
    · intro v hc hv
      subst hc
      unfold resolveEnvFromRequest
      simp [h, hv]
    · intro hc
      rcases hc with hc | hc <;> subst hc <;> unfold resolveEnvFromRequest <;>
        simp [h]

/-- C8, witness: the amended characterization applied to a request with
`ENV=DEV` and no cookie, and to a request with no signal at all. -/
theorem resolveEnv_witness :
    resolveEnvFromRequest "DEV" none = ("dev", some ⟨envCookieName, "DEV", "/"⟩)
    ∧ (resolveEnvFromRequest "" none).1 = envValueProd :=
  ⟨by
    have h := (resolveEnv_characterization "DEV" none).1 (by decide)
    rw [h]
    decide,
   (resolveEnv_characterization "" none).2 (by decide) |>.2.2 (Or.inl rfl)⟩

/-- C4: the close-reason classifier returns true exactly for `nil` errors
and errors whose underlying cause is one of the two context-cancellation
errors or the two sentinel bridge errors, and the handler feeds its
result into the ticket's decommission argument only for non-dev
sessions (dev sessions always pass false). -/
theorem shouldDecommission_characterization :
    (∀ e : Option GoError, shouldDecommission e = true ↔
      (e = none ∨ ∃ er, e = some er ∧
        (er.cause = GoError.canceled ∨ er.cause = GoError.deadlineExceeded
          ∨ er.cause = GoError.masterClosed ∨ er.cause = GoError.slaveClosed)))
    ∧ (∀ (opts : Options) (st : ServerState) (req : Request) (io : SessionIO)
        (err : Option GoError),
      (handleWS opts st req io).response = WSResponse.ran err →
      (handleWS opts st req io).finishArg
        = some (if envOf req = envValueDev then false
            else shouldDecommission err)) := by
  constructor
  · intro e
    cases e with
    | none => simp [shouldDecommission]
    | some er =>
      simp only [shouldDecommission]
      cases h : er.cause <;> simp [h]
  · intro opts st req io err h
    unfold handleWS at h ⊢
    by_cases h1 : opts.once = true ∧ st.onceClaimed = true
    · simp [h1] at h
    · simp only [if_neg h1] at h ⊢
      rcases hb : beginManagedSession
          (if opts.once then { st with onceClaimed := true } else st)
          (envOf req) with ⟨res, st1⟩
      rw [hb] at h
      rcases res with e | g
      · simp at h
      · by_cases h2 : req.method ≠ "GET"
        · simp [h2] at h
        · simp only [if_neg h2] at h ⊢
          by_cases h3 : req.upgradeOk = false
          · simp [h3] at h
          · simp only [if_neg h3] at h ⊢
            by_cases h4 : opts.maxConnection ≠ 0 ∧ io.liveCount > opts.maxConnection
            · simp [h4] at h
            · simp only [if_neg h4] at h ⊢
              simp only [WSResponse.ran.injEq] at h
              rw [← h]
              unfold sessionDecommissionArg
              by_cases he : envOf req = envValueDev <;> simp [he]

/-- C4, witness: a dev session that ran to completion gets `false`
passed to its ticket's `finish`, whatever the classifier would say. -/
theorem shouldDecommission_witness :
    (handleWS ⟨false, 0, "", false⟩ initialServer ⟨"GET", "dev", none, [], true⟩
        ⟨1, Except.ok (1, some ⟨"", ""⟩), Except.ok (), true, true, none⟩).finishArg
      = some (if envOf ⟨"GET", "dev", none, [], true⟩ = envValueDev then false
          else shouldDecommission none) :=
  shouldDecommission_characterization.2 ⟨false, 0, "", false⟩ initialServer
    ⟨"GET", "dev", none, [], true⟩
    ⟨1, Except.ok (1, some ⟨"", ""⟩), Except.ok (), true, true, none⟩ none (by decide)

/-- C6, counterexample: with WebSocket init `Arguments="foo=1&bar=2"`
(no leading `?`) and HTTP query `?bar=3`, the merged parameter set the
handler builds is `{bar: 3}` — the key `foo` is absent, because
`url.Parse` treats an argument string without a `?` as having an empty
query — contradicting the claimed `{foo: 1, bar: 3}`. -/
theorem merged_params_drop_unprefixed_arguments :
    wsMergedParams ⟨false, 0, "secret", true⟩ "foo=1&bar=2" [("bar", ["3"])]
        = [("bar", ["3"])]
    ∧ lookupQ (wsMergedParams ⟨false, 0, "secret", true⟩ "foo=1&bar=2"
        [("bar", ["3"])]) "foo" = none := by
  constructor <;> decide

/-- C6 (amended): for every key present in the HTTP request's query
parameters the merged parameter set takes the HTTP value, and keys only
present in the parsed query portion of the init message's `Arguments`
(the part after its first `?`) keep their init value; in particular,
with init `Arguments="?foo=1&bar=2"` and HTTP query `?bar=3` the
parameter set handed to the backend factory is `{foo: 1, bar: 3}`. -/
theorem argument_precedence :
    (∀ (params http : Query) (k : String) (vs : List String),
      ((http.map Prod.fst).Nodup → (k, vs) ∈ http →
        lookupQ (overlayHTTPParams params http) k = some vs)
      ∧ (k ∉ http.map Prod.fst →
        lookupQ (overlayHTTPParams params http) k = lookupQ params k))
    ∧ (processWSConn ⟨false, 0, "secret", true⟩
        ⟨1, Except.ok (1, some ⟨"secret", "?foo=1&bar=2"⟩), Except.ok (), true,
          true, none⟩
        [("bar", ["3"])]).factoryParams
      = some [("foo", ["1"]), ("bar", ["3"])] := by
  refine ⟨fun params http k vs => ⟨?_, ?_⟩, by decide⟩
  · exact fun hnd hmem => lookupQ_overlay_mem http params k vs hnd hmem
  · exact fun hnm => lookupQ_overlay_not_mem http params k hnm

/-- C6, witness: the per-key precedence statements applied to the
concrete overlay of `?bar=3` over `foo=1&bar=2`. -/
theorem argument_precedence_witness :
    lookupQ (overlayHTTPParams [("foo", ["1"]), ("bar", ["2"])] [("bar", ["3"])])
        "bar" = some ["3"]
    ∧ lookupQ (overlayHTTPParams [("foo", ["1"]), ("bar", ["2"])] [("bar", ["3"])])
        "foo" = lookupQ [("foo", ["1"]), ("bar", ["2"])] "foo" :=
  ⟨(argument_precedence.1 [("foo", ["1"]), ("bar", ["2"])] [("bar", ["3"])]
      "bar" ["3"]).1 (by decide) (by decide),
   (argument_precedence.1 [("foo", ["1"]), ("bar", ["2"])] [("bar", ["3"])]
      "foo" ["3"]).2 (by decide)⟩

/-- C7: `processWSConn` returns an error without invoking the backend
factory whenever the first frame is not a text frame, or its payload is
not valid JSON, or the parsed `AuthToken` differs from the configured
credential; and the factory is invoked only when all three checks
pass. -/
theorem auth_gate (opts : Options) (io : SessionIO) (http : Query) :
    (∀ typ payload, io.readResult = Except.ok (typ, payload) →
      typ ≠ textMessage →
      (processWSConn opts io http).err ≠ none
      ∧ (processWSConn opts io http).factoryInvoked = false)
    ∧ (∀ typ, io.readResult = Except.ok (typ, none) →
      (processWSConn opts io http).err ≠ none
      ∧ (processWSConn opts io http).factoryInvoked = false)
    ∧ (∀ typ init, io.readResult = Except.ok (typ, some init) →
      init.AuthToken ≠ opts.credential →
      (processWSConn opts io http).err ≠ none
      ∧ (processWSConn opts io http).factoryInvoked = false)
    ∧ ((processWSConn opts io http).factoryInvoked = true →
      ∃ init, io.readResult = Except.ok (textMessage, some init)
        ∧ init.AuthToken = opts.credential) := by
  refine ⟨?_, ?_, ?_, ?_⟩
  · intro typ payload h hne
    simp only [processWSConn, h]
    simp [hne]
  · intro typ h
    simp only [processWSConn, h]
    by_cases ht : typ = textMessage <;> simp [ht]
  · intro typ init h hauth
    simp only [processWSConn, h]
    by_cases ht : typ = textMessage <;> simp [ht, hauth]
  · intro h
    unfold processWSConn at h
    rcases hr : io.readResult with e | p
    · rw [hr] at h
      simp at h
    · obtain ⟨typ, payload⟩ := p
      rw [hr] at h
      by_cases ht : typ = textMessage
      · rcases payload with _ | init
        · simp [ht] at h
        · by_cases hauth : init.AuthToken = opts.credential
          · subst ht
            exact ⟨init, rfl, hauth⟩
          · simp [ht, hauth] at h
      · simp [ht] at h

/-- C7, witness: a session presenting the wrong token on a valid text
frame is rejected before backend creation. -/
theorem auth_gate_witness :
    (processWSConn ⟨false, 0, "secret", false⟩
        ⟨1, Except.ok (1, some ⟨"wrong", ""⟩), Except.ok (), true, true, none⟩
        []).err ≠ none
    ∧ (processWSConn ⟨false, 0, "secret", false⟩
        ⟨1, Except.ok (1, some ⟨"wrong", ""⟩), Except.ok (), true, true, none⟩
        []).factoryInvoked = false :=
  (auth_gate ⟨false, 0, "secret", false⟩
      ⟨1, Except.ok (1, some ⟨"wrong", ""⟩), Except.ok (), true, true, none⟩
      []).2.2.1 1 ⟨"wrong", ""⟩ rfl (by decide)

theorem handleWS_onceClaimed (opts : Options) (st : ServerState) (req : Request)
    (io : SessionIO) :
    ((handleWS opts st req io).state).onceClaimed = (st.onceClaimed || opts.once) := by
  unfold handleWS
  by_cases h1 : opts.once = true ∧ st.onceClaimed = true
  · obtain ⟨ho, hc⟩ := h1
    simp [ho, hc]
  · simp only [if_neg h1]
    rcases hb : beginManagedSession
        (if opts.once then { st with onceClaimed := true } else st) (envOf req)
        with ⟨res, st1⟩
    have hst1 : st1.onceClaimed
        = ((if opts.once then { st with onceClaimed := true } else st) :
            ServerState).onceClaimed := by
      have h := beginManagedSession_onceClaimed
        (if opts.once then { st with onceClaimed := true } else st) (envOf req)
      rw [hb] at h
      exact h
    have hval : st1.onceClaimed = (st.onceClaimed || opts.once) := by
      rw [hst1]
      by_cases ho : opts.once = true <;> simp [ho]
    rcases res with e | g
    · exact hval
    · split_ifs <;> simp [finish_onceClaimed, hval]

/-- C10: in once mode the single-use flag is claimed before admission and
never released — once it is claimed, every request to the WebSocket
handler receives HTTP 503 "Server is shutting down" with the state
untouched; and any once-mode request leaves the flag claimed, even when
its admission failed or its method was not GET; the flag is never
cleared. -/
theorem once_mode (opts : Options) (st : ServerState) (req : Request)
    (io : SessionIO) :
    (opts.once = true → st.onceClaimed = true →
      (handleWS opts st req io).response
          = WSResponse.httpError 503 "Server is shutting down"
      ∧ (handleWS opts st req io).state = st)
    ∧ (opts.once = true → ((handleWS opts st req io).state).onceClaimed = true)
    ∧ (st.onceClaimed = true → ((handleWS opts st req io).state).onceClaimed = true) := by
  refine ⟨?_, ?_, ?_⟩
  · intro ho hc
    unfold handleWS
    simp [ho, hc]
  · intro ho
    rw [handleWS_onceClaimed]
    simp [ho]
  · intro hc
    rw [handleWS_onceClaimed]
    simp [hc]

/-- C10, witness: a once-mode request after the flag was claimed — here
one whose method is not even GET — is turned away with 503, and a first
once-mode request that fails admission still claims the flag. -/
theorem once_mode_witness :
    ((handleWS ⟨true, 0, "", false⟩ ⟨false, false, false, true⟩
        ⟨"POST", "", none, [], true⟩
        ⟨1, Except.ok (1, some ⟨"", ""⟩), Except.ok (), true, true, none⟩).response
      = WSResponse.httpError 503 "Server is shutting down"
    ∧ (handleWS ⟨true, 0, "", false⟩ ⟨false, false, false, true⟩
        ⟨"POST", "", none, [], true⟩
        ⟨1, Except.ok (1, some ⟨"", ""⟩), Except.ok (), true, true, none⟩).state
      = ⟨false, false, false, true⟩)
    ∧ ((handleWS ⟨true, 0, "", false⟩ ⟨false, true, true, false⟩
        ⟨"GET", "", none, [], true⟩
        ⟨1, Except.ok (1, some ⟨"", ""⟩), Except.ok (), true, true, none⟩).state).onceClaimed
      = true :=
  ⟨(once_mode ⟨true, 0, "", false⟩ ⟨false, false, false, true⟩
      ⟨"POST", "", none, [], true⟩
      ⟨1, Except.ok (1, some ⟨"", ""⟩), Except.ok (), true, true, none⟩).1 rfl rfl,
   (once_mode ⟨true, 0, "", false⟩ ⟨false, true, true, false⟩
      ⟨"GET", "", none, [], true⟩
      ⟨1, Except.ok (1, some ⟨"", ""⟩), Except.ok (), true, true, none⟩).2.1 rfl⟩

/-- C5: once a request has passed the once gate, admission, the GET
check and the upgrade, a positive configured maximum that is exceeded by
the incremented live count makes the handler send a close frame with
application code 4000 and reason "Another session is active" and stop
before authentication or backend creation; otherwise (count within the
maximum, or no maximum configured) the session proceeds to the
authentication step. -/
theorem max_connection_close (opts : Options) (st : ServerState) (req : Request)
    (io : SessionIO)
    (h1 : ¬(opts.once = true ∧ st.onceClaimed = true))
    (h2 : st.decommissioned = false)
    (h3 : envOf req = envValueDev ∨ st.activeSession = false)
    (h4 : req.method = "GET")
    (h5 : req.upgradeOk = true) :
    (0 < opts.maxConnection → opts.maxConnection < io.liveCount →
      (handleWS opts st req io).response
          = WSResponse.closeFrame 4000 "Another session is active"
      ∧ (handleWS opts st req io).authAttempted = false
      ∧ (handleWS opts st req io).factoryInvoked = false)
    ∧ ((io.liveCount ≤ opts.maxConnection ∨ opts.maxConnection = 0) →
      (handleWS opts st req io).authAttempted = true) := by
  have hdec : ((if opts.once = true then { st with onceClaimed := true } else st) :
      ServerState).decommissioned = false := by
    by_cases ho : opts.once = true <;> simp [ho, h2]
  have hstep : ∃ st1, beginManagedSession
      (if opts.once = true then { st with onceClaimed := true } else st) (envOf req)
      = (Except.ok ⟨envOf req⟩, st1) := by
    unfold beginManagedSession
    by_cases he : envOf req = envValueDev
    · exact ⟨(if opts.once = true then { st with onceClaimed := true } else st),
        by simp [hdec, he]⟩
    · have ha : st.activeSession = false := by
        rcases h3 with h3 | h3
        · exact absurd h3 he
        · exact h3
      have hact : ((if opts.once = true then { st with onceClaimed := true } else st) :
          ServerState).activeSession = false := by
        by_cases ho : opts.once = true <;> simp [ho, ha]
      exact ⟨{ (if opts.once = true then { st with onceClaimed := true } else st) with
          activeSession := true },
        by simp [hdec, he, hact]⟩
  obtain ⟨st1, hbegin⟩ := hstep
  unfold handleWS
  simp only [if_neg h1]
  rw [hbegin]
  constructor
  · intro hp hlt
    have hm : opts.maxConnection ≠ 0 ∧ io.liveCount > opts.maxConnection :=
      ⟨by omega, hlt⟩
    simp [h4, h5, hm]
  · intro hle
    have hm : ¬(opts.maxConnection ≠ 0 ∧ io.liveCount > opts.maxConnection) := by
      rcases hle with hle | h0
      · rintro ⟨_, hgt⟩
        omega
      · rintro ⟨hne, _⟩
        exact hne h0
    simp [h4, h5, hm]

/-- C5, witness: with `MaxConnection = 1` a session counted as the second
live connection is closed with code 4000 after upgrade, before
authentication. -/
theorem max_connection_close_witness :
    (handleWS ⟨false, 1, "s", false⟩ initialServer ⟨"GET", "", none, [], true⟩
        ⟨2, Except.ok (1, some ⟨"s", ""⟩), Except.ok (), true, true, none⟩).response
      = WSResponse.closeFrame 4000 "Another session is active"
    ∧ (handleWS ⟨false, 1, "s", false⟩ initialServer ⟨"GET", "", none, [], true⟩
        ⟨2, Except.ok (1, some ⟨"s", ""⟩), Except.ok (), true, true, none⟩).authAttempted
      = false
    ∧ (handleWS ⟨false, 1, "s", false⟩ initialServer ⟨"GET", "", none, [], true⟩
        ⟨2, Except.ok (1, some ⟨"s", ""⟩), Except.ok (), true, true, none⟩).factoryInvoked
      = false :=
  (max_connection_close ⟨false, 1, "s", false⟩ initialServer
      ⟨"GET", "", none, [], true⟩
      ⟨2, Except.ok (1, some ⟨"s", ""⟩), Except.ok (), true, true, none⟩
      (by decide) rfl (Or.inr rfl) rfl rfl).1 (by decide) (by decide)

theorem beginManagedSession_error (s : ServerState) (env : String)
    (e : SessionError) (s1 : ServerState)
    (h : beginManagedSession s env = (Except.error e, s1)) : s1 = s := by
  unfold beginManagedSession at h
  split_ifs at h <;> simp_all

theorem beginManagedSession_ok (s : ServerState) (env : String)
    (g : SessionGuard) (s1 : ServerState)
    (h : beginManagedSession s env = (Except.ok g, s1)) :
    g.env = env ∧ s.decommissioned = false
    ∧ ((env = envValueDev ∧ s1 = s)
      ∨ (env ≠ envValueDev ∧ s.activeSession = false
          ∧ s1 = { s with activeSession := true })) := by
  unfold beginManagedSession at h
  split_ifs at h with hd hdev hact
  · simp at h
  · simp only [Prod.mk.injEq, Except.ok.injEq] at h
    obtain ⟨hg, hs⟩ := h
    exact ⟨by rw [← hg], by simpa using hd, Or.inl ⟨hdev, hs.symm⟩⟩
  · simp at h
  · simp only [Prod.mk.injEq, Except.ok.injEq] at h
    obtain ⟨hg, hs⟩ := h
    exact ⟨by rw [← hg], by simpa using hd,
      Or.inr ⟨hdev, by simpa using hact, hs.symm⟩⟩

theorem liveTickets_append (l : List TicketRec) (t : TicketRec) :
    ((l ++ [t]).filter isLive).length
      = (l.filter isLive).length + (if isLive t then 1 else 0) := by
  rw [List.filter_append]
  by_cases h : isLive t <;> simp [h]

theorem liveTickets_set (l : List TicketRec) (i : Nat) (t t1 : TicketRec)
    (h : l.get? i = some t) :
    ((l.set i t1).filter isLive).length + (if isLive t then 1 else 0)
      = (l.filter isLive).length + (if isLive t1 then 1 else 0) := by
  induction l generalizing i with
  | nil => simp at h
  | cons hd tl ih =>
    cases i with
    | zero =>
      simp only [List.get?] at h
      injection h with h
      subst h
      simp only [List.set]
      by_cases h1 : isLive hd <;> by_cases h2 : isLive t1 <;>
        simp [List.filter_cons, h1, h2]
    | succ n =>
      simp only [List.get?] at h
      simp only [List.set]
      have := ih n h
      by_cases h1 : isLive hd <;> simp [List.filter_cons, h1] <;> omega

theorem liveTickets_pos (l : List TicketRec) (i : Nat) (t : TicketRec)
    (h : l.get? i = some t) (hl : isLive t = true) :
    1 ≤ (l.filter isLive).length := by
  induction l generalizing i with
  | nil => simp at h
  | cons hd tl ih =>
    cases i with
    | zero =>
      simp only [List.get?] at h
      injection h with h
      subst h
      simp [List.filter_cons, hl]
    | succ n =>
      simp only [List.get?] at h
      have := ih n h
      by_cases h1 : isLive hd <;> simp [List.filter_cons, h1] <;> omega

theorem get?_append_case (l : List TicketRec) (t : TicketRec) (j : Nat)
    (u : TicketRec) (h : (l ++ [t]).get? j = some u) :
    l.get? j = some u ∨ u = t := by
  induction l generalizing j with
  | nil =>
    cases j with
    | zero =>
      simp at h
      exact Or.inr h.symm
    | succ n => simp at h
  | cons hd tl ih =>
    cases j with
    | zero =>
      simp at h ⊢
      exact Or.inl h
    | succ n =>
      simp only [List.cons_append, List.get?] at h ⊢
      exact ih n h

theorem finishIndices_begin (env : String) (es : List SessionEvent) :
    finishIndices (SessionEvent.beginEv env :: es) = finishIndices es := by
  simp [finishIndices]

theorem finishIndices_finish (i : Nat) (d : Bool) (es : List SessionEvent) :
    finishIndices (SessionEvent.finishEv i d :: es) = i :: finishIndices es := by
  simp [finishIndices]

theorem sysInv_step (st : SysState) (e : SessionEvent) (es : List SessionEvent)
    (hI : SysInv st)
    (hnd : (finishIndices (e :: es)).Nodup)
    (hnr : NoRefinish st (e :: es)) :
    SysInv (stepSys st e) ∧ (finishIndices es).Nodup
      ∧ NoRefinish (stepSys st e) es := by
  cases e with
  | beginEv env =>
    rw [finishIndices_begin] at hnd
    have hnr' : NoRefinish st es := by
      intro j u hj hu
      have := hnr j u hj hu
      rwa [finishIndices_begin] at this
    rcases hb : beginManagedSession st.srv env with ⟨res, s1⟩
    rcases res with err | g
    · have hstep : stepSys st (SessionEvent.beginEv env) = ⟨s1, st.tickets⟩ := by
        simp only [stepSys, hb]
      have hs1 : s1 = st.srv := beginManagedSession_error _ _ _ _ hb
      subst hs1
      rw [hstep]
      exact ⟨hI, hnd, hnr'⟩
    · have hstep : stepSys st (SessionEvent.beginEv env)
          = ⟨s1, st.tickets ++ [⟨g.env, false⟩]⟩ := by
        simp only [stepSys, hb]
      rw [hstep]
      obtain ⟨hgenv, hdec, hcase⟩ := beginManagedSession_ok _ _ _ _ hb
      have hnr2 : NoRefinish ⟨s1, st.tickets ++ [⟨g.env, false⟩]⟩ es := by
        intro j u hj hu
        rcases get?_append_case _ _ _ _ hj with hj' | hj'
        · exact hnr' j u hj' hu
        · rw [hj'] at hu
          simp at hu
      refine ⟨⟨?_, ?_⟩, hnd, hnr2⟩ <;>
        rcases hcase with ⟨hdev, hs1⟩ | ⟨hndev, hact, hs1⟩
      · show ((st.tickets ++ [(⟨g.env, false⟩ : TicketRec)]).filter isLive).length ≤ 1
        have hnl : isLive ⟨g.env, false⟩ = false := by
          simp [isLive, hgenv, hdev]
        rw [liveTickets_append, hnl]
        simpa using hI.1
      · show ((st.tickets ++ [(⟨g.env, false⟩ : TicketRec)]).filter isLive).length ≤ 1
        have hl : isLive ⟨g.env, false⟩ = true := by
          simp [isLive, hgenv, hndev]
        have hzero : (st.tickets.filter isLive).length = 0 := by
          rcases Nat.lt_or_ge (liveProdCount st) 1 with h | h
          · simpa [liveProdCount] using h
          · have hone : liveProdCount st = 1 := le_antisymm hI.1 h
            have := (hI.2 hone).1
            rw [hact] at this
            cases this
        rw [liveTickets_append, hl, hzero]
        simp
      · intro h1
        rw [hs1]
        apply hI.2
        have hnl : isLive ⟨g.env, false⟩ = false := by
          simp [isLive, hgenv, hdev]
        have h1' : ((st.tickets ++ [(⟨g.env, false⟩ : TicketRec)]).filter
            isLive).length = 1 := h1
        rw [liveTickets_append, hnl] at h1'
        simpa [liveProdCount] using h1'
      · intro _
        rw [hs1]
        exact ⟨rfl, hdec⟩
  | finishEv i d =>
    rw [finishIndices_finish] at hnd
    have hnd1 : i ∉ finishIndices es := (List.nodup_cons.mp hnd).1
    have hnd2 : (finishIndices es).Nodup := (List.nodup_cons.mp hnd).2
    cases hg : st.tickets.get? i with
    | none =>
      have hstep : stepSys st (SessionEvent.finishEv i d) = st := by
        simp only [stepSys, hg]
      rw [hstep]
      refine ⟨hI, hnd2, ?_⟩
      intro j u hj hu
      have := hnr j u hj hu
      rw [finishIndices_finish] at this
      exact fun hmem => this (List.mem_cons_of_mem _ hmem)
    | some t =>
      have hstep : stepSys st (SessionEvent.finishEv i d)
          = ⟨(SessionGuard.finish ⟨t.env⟩ st.srv d).2,
              st.tickets.set i ⟨t.env, true⟩⟩ := by
        simp only [stepSys, hg]
      rw [hstep]
      have hfin : t.finished = false := by
        by_contra hf
        have hf' : t.finished = true := by
          revert hf
          cases t.finished <;> simp
        have := hnr i t hg hf'
        rw [finishIndices_finish] at this
        exact this (List.mem_cons_self _ _)
      have hnr2 : NoRefinish ⟨(SessionGuard.finish ⟨t.env⟩ st.srv d).2,
          st.tickets.set i ⟨t.env, true⟩⟩ es := by
        intro j u hj hu
        by_cases hji : i = j
        · subst hji
          exact hnd1
        · rw [List.get?_set_ne _ _ hji] at hj
          have := hnr j u hj hu
          rw [finishIndices_finish] at this
          exact fun hmem => this (List.mem_cons_of_mem _ hmem)
      have hcount := liveTickets_set st.tickets i t ⟨t.env, true⟩ hg
      have hnl1 : isLive ⟨t.env, true⟩ = false := by
        simp [isLive]
      rw [hnl1] at hcount
      simp only [if_pos, if_neg, Bool.false_eq_true, ite_false, Nat.add_zero]
        at hcount
      by_cases henv : t.env = envValueDev
      · have hsrv : (SessionGuard.finish ⟨t.env⟩ st.srv d).2 = st.srv := by
          unfold SessionGuard.finish
          simp [henv]
        have hnl : isLive t = false := by
          simp [isLive, henv]
        rw [hnl] at hcount
        simp only [Bool.false_eq_true, ite_false, Nat.add_zero] at hcount
        have h1 : (st.tickets.filter isLive).length ≤ 1 := hI.1
        refine ⟨⟨?_, ?_⟩, hnd2, hnr2⟩
        · show ((st.tickets.set i (⟨t.env, true⟩ : TicketRec)).filter
            isLive).length ≤ 1
          omega
        · intro hone
          rw [hsrv]
          apply hI.2
          show (st.tickets.filter isLive).length = 1
          have hone' : ((st.tickets.set i (⟨t.env, true⟩ : TicketRec)).filter
              isLive).length = 1 := hone
          omega
      · have hl : isLive t = true := by
          simp [isLive, henv, hfin]
        rw [hl] at hcount
        simp only [ite_true, if_pos] at hcount
        have hone : (st.tickets.filter isLive).length = 1 :=
          le_antisymm hI.1 (liveTickets_pos st.tickets i t hg hl)
        have hzero : ((st.tickets.set i (⟨t.env, true⟩ : TicketRec)).filter
            isLive).length = 0 := by
          omega
        refine ⟨⟨?_, ?_⟩, hnd2, hnr2⟩
        · show ((st.tickets.set i (⟨t.env, true⟩ : TicketRec)).filter
            isLive).length ≤ 1
          omega
        · intro hone'
          have : ((st.tickets.set i (⟨t.env, true⟩ : TicketRec)).filter
              isLive).length = 1 := hone'
          omega

theorem sysInv_runFrom (es : List SessionEvent) (st : SysState)
    (hI : SysInv st) (hnd : (finishIndices es).Nodup) (hnr : NoRefinish st es) :
    SysInv (runFrom st es) := by
  induction es generalizing st with
  | nil => exact hI
  | cons e es ih =>
    obtain ⟨h1, h2, h3⟩ := sysInv_step st e es hI hnd hnr
    exact ih (stepSys st e) h1 h2 h3

theorem stepSys_decomm_mono (st : SysState) (e : SessionEvent)
    (h : st.srv.decommissioned = true) :
    ((stepSys st e).srv).decommissioned = true := by
  cases e with
  | beginEv env =>
    simp only [stepSys]
    rcases hb : beginManagedSession st.srv env with ⟨res, s1⟩
    rcases res with err | g
    · rw [beginManagedSession_error _ _ _ _ hb]
      exact h
    · obtain ⟨_, hdec, _⟩ := beginManagedSession_ok _ _ _ _ hb
      rw [h] at hdec
      cases hdec
  | finishEv i d =>
    simp only [stepSys]
    cases hg : st.tickets.get? i with
    | none => exact h
    | some t =>
      show ((SessionGuard.finish ⟨t.env⟩ st.srv d).2).decommissioned = true
      unfold SessionGuard.finish
      split_ifs <;> simp_all

theorem stepSys_unhealthy_impl (st : SysState) (e : SessionEvent)
    (h : st.srv.decommissioned = true → st.srv.unhealthy = true) :
    ((stepSys st e).srv).decommissioned = true →
      ((stepSys st e).srv).unhealthy = true := by
  cases e with
  | beginEv env =>
    simp only [stepSys]
    rcases hb : beginManagedSession st.srv env with ⟨res, s1⟩
    rcases res with err | g
    · rw [beginManagedSession_error _ _ _ _ hb]
      exact h
    · obtain ⟨_, _, hcase⟩ := beginManagedSession_ok _ _ _ _ hb
      rcases hcase with ⟨_, hs1⟩ | ⟨_, _, hs1⟩ <;> subst hs1 <;>
        exact fun hd => h hd
  | finishEv i d =>
    simp only [stepSys]
    cases hg : st.tickets.get? i with
    | none => exact h
    | some t =>
      show ((SessionGuard.finish ⟨t.env⟩ st.srv d).2).decommissioned = true → _
      unfold SessionGuard.finish
      split_ifs <;> simp_all

theorem runFrom_unhealthy_impl (es : List SessionEvent) (st : SysState)
    (h : st.srv.decommissioned = true → st.srv.unhealthy = true) :
    ((runFrom st es).srv).decommissioned = true →
      ((runFrom st es).srv).unhealthy = true := by
  induction es generalizing st with
  | nil => exact h
  | cons e es ih => exact ih (stepSys st e) (stepSys_unhealthy_impl st e h)

/-- C1: under every interleaving of admission and release events in which
each issued ticket is finished at most once, at most one live prod
ticket exists at any time; while one exists, every further
`beginManagedSession` with a non-dev environment fails with
`SessionActive`; and finishing a live prod ticket clears the
`activeSession` slot. -/
theorem prod_mutual_exclusion (es : List SessionEvent)
    (hnd : (finishIndices es).Nodup) :
    liveProdCount (runSys es) ≤ 1
    ∧ ((∃ i t, (runSys es).tickets.get? i = some t ∧ t.env ≠ envValueDev
          ∧ t.finished = false) →
        ∀ env, env ≠ envValueDev →
          (beginManagedSession (runSys es).srv env).1
            = Except.error SessionError.sessionActive)
    ∧ (∀ i t d, (runSys es).tickets.get? i = some t → t.env ≠ envValueDev →
        t.finished = false →
        ((stepSys (runSys es) (SessionEvent.finishEv i d)).srv).activeSession
          = false) := by
  have hInv : SysInv (runSys es) := by
    apply sysInv_runFrom es ⟨initialServer, []⟩ _ hnd
    · intro i t h
      simp at h
    · constructor
      · show (([] : List TicketRec).filter isLive).length ≤ 1
        simp
      · intro h1
        simp [liveProdCount] at h1
  refine ⟨hInv.1, ?_, ?_⟩
  · rintro ⟨i, t, hg, he, hf⟩ env henv
    have hl : isLive t = true := by
      simp [isLive, hf]
      exact he
    have hone : liveProdCount (runSys es) = 1 :=
      le_antisymm hInv.1 (liveTickets_pos _ i t hg hl)
    obtain ⟨hact, hdec⟩ := hInv.2 hone
    unfold beginManagedSession
    simp [hdec, henv, hact]
  · intro i t d hg he hf
    simp only [stepSys, hg]
    show ((SessionGuard.finish ⟨t.env⟩ (runSys es).srv d).2).activeSession = false
    unfold SessionGuard.finish
    simp only [if_neg he]
    split_ifs <;> rfl

/-- C1, witness: the mutual-exclusion theorem applied to the concrete
trace that admits one prod session. -/
theorem prod_mutual_exclusion_witness :
    liveProdCount (runSys [SessionEvent.beginEv envValueProd]) ≤ 1
    ∧ ((∃ i t, (runSys [SessionEvent.beginEv envValueProd]).tickets.get? i = some t
          ∧ t.env ≠ envValueDev ∧ t.finished = false) →
        ∀ env, env ≠ envValueDev →
          (beginManagedSession (runSys [SessionEvent.beginEv envValueProd]).srv env).1
            = Except.error SessionError.sessionActive)
    ∧ (∀ i t d,
        (runSys [SessionEvent.beginEv envValueProd]).tickets.get? i = some t →
        t.env ≠ envValueDev → t.finished = false →
        ((stepSys (runSys [SessionEvent.beginEv envValueProd])
            (SessionEvent.finishEv i d)).srv).activeSession = false) :=
  prod_mutual_exclusion [SessionEvent.beginEv envValueProd] (by decide)

/-- C2: the decommissioned flag is one-way — no admission or release
event ever clears it — and in every reachable decommissioned state the
unhealthy flag is set, so the health gate answers every request with
status 500 and every `beginManagedSession` call, whatever its
environment, fails with `ServerDestroyed`. -/
theorem decommission_oneway (es : List SessionEvent) (st : SysState)
    (e : SessionEvent) (inner : HTTPResponse) (env : String) :
    (st.srv.decommissioned = true → ((stepSys st e).srv).decommissioned = true)
    ∧ ((runSys es).srv.decommissioned = true →
        (runSys es).srv.unhealthy = true
        ∧ wrapUnhealthy ((runSys es).srv).unhealthy inner = ⟨500, "session closed"⟩
        ∧ (beginManagedSession (runSys es).srv env).1
            = Except.error SessionError.serverDestroyed) := by
  refine ⟨stepSys_decomm_mono st e, ?_⟩
  intro hd
  have hu : (runSys es).srv.unhealthy = true := by
    apply runFrom_unhealthy_impl es ⟨initialServer, []⟩ _ hd
    intro h
    simp [initialServer] at h
  refine ⟨hu, ?_, ?_⟩
  · unfold wrapUnhealthy
    rw [hu]
    rfl
  · unfold beginManagedSession
    simp [hd]

/-- C2, witness: the one-way/decommission consequences at the concrete
trace in which one prod session ends with decommissioning. -/
theorem decommission_oneway_witness :
    (((runSys [SessionEvent.beginEv envValueProd,
          SessionEvent.finishEv 0 true]).srv).decommissioned = true →
      ((stepSys (runSys [SessionEvent.beginEv envValueProd,
          SessionEvent.finishEv 0 true]) (SessionEvent.beginEv envValueDev)).srv).decommissioned
        = true)
    ∧ ((runSys [SessionEvent.beginEv envValueProd,
          SessionEvent.finishEv 0 true]).srv).unhealthy = true
    ∧ wrapUnhealthy (((runSys [SessionEvent.beginEv envValueProd,
          SessionEvent.finishEv 0 true]).srv).unhealthy) ⟨200, "ok"⟩
        = ⟨500, "session closed"⟩
    ∧ (beginManagedSession ((runSys [SessionEvent.beginEv envValueProd,
          SessionEvent.finishEv 0 true]).srv) envValueDev).1
        = Except.error SessionError.serverDestroyed :=
  ⟨(decommission_oneway [SessionEvent.beginEv envValueProd,
      SessionEvent.finishEv 0 true]
      (runSys [SessionEvent.beginEv envValueProd, SessionEvent.finishEv 0 true])
      (SessionEvent.beginEv envValueDev) ⟨200, "ok"⟩ envValueDev).1,
   (decommission_oneway [SessionEvent.beginEv envValueProd,
      SessionEvent.finishEv 0 true]
      (runSys [SessionEvent.beginEv envValueProd, SessionEvent.finishEv 0 true])
      (SessionEvent.beginEv envValueDev) ⟨200, "ok"⟩ envValueDev).2 (by decide)⟩

end Gotty
